import Mathlib

/-!
Verification of the seo-audit-backend analysis pipeline (src/server.js).

The JavaScript under verification operates on JS strings.  We embed a JS
string as its list of characters (`JStr`), and re-implement the handful of
string primitives the audited code uses (`startsWith`, `includes`,
`toLowerCase`, `trim`, `split`, `substring`) as structurally recursive
functions over `List Char`, so that every definition is executable and every
concrete instance can be settled by `decide`.
-/

/-- Embedding of a JavaScript string as its list of characters. -/
abbrev JStr := List Char

/-- Embedding of JavaScript `s.startsWith(pre)`. -/
def jsStartsWithL (s pre : JStr) : Bool := pre.isPrefixOf s

/-- Embedding of JavaScript `s.includes(sub)` (substring containment). -/
def jsIncludesL (s sub : JStr) : Bool :=
  match s with
  | [] => sub.isEmpty
  | _ :: t => sub.isPrefixOf s || jsIncludesL t sub

/-- ASCII lower-casing of one character, as `toLowerCase` acts on ASCII. -/
def jsCharLower (c : Char) : Char :=
  if 'A' ≤ c && c ≤ 'Z' then Char.ofNat (c.toNat + 32) else c

/-- Embedding of JavaScript `s.toLowerCase()` (ASCII fragment). -/
def jsLowerL (s : JStr) : JStr := s.map jsCharLower

/-- Whitespace characters removed by JavaScript `String.prototype.trim`. -/
def jsWhitespace (c : Char) : Bool :=
  c == ' ' || c == '\t' || c == '\n' || c == '\r' || c == '\x0b' || c == '\x0c'

/-- Embedding of JavaScript `s.trim()`. -/
def jsTrimL (s : JStr) : JStr :=
  ((s.dropWhile jsWhitespace).reverse.dropWhile jsWhitespace).reverse

/-- Embedding of JavaScript `s.split(sep)` for a one-character separator. -/
def jsSplitL (sep : Char) : JStr → List JStr
  | [] => [[]]
  | c :: cs =>
    match jsSplitL sep cs with
    | [] => if c == sep then [[], []] else [[c]]
    | h :: t => if c == sep then [] :: h :: t else (c :: h) :: t

/-- Embeds `checkPathRobots(path, disallowRules, allowRules)`
(src/server.js:340-358): start allowed; every disallow rule that is a prefix
of the path re-decides the verdict, setting it to whether some allow rule is
a prefix of the path and strictly longer than that disallow rule. -/
def checkPathRobots (path : JStr) (disallowRules allowRules : List JStr) : Bool :=
  disallowRules.foldl
    (fun allowed rule =>
      if jsStartsWithL path rule then
        allowRules.any (fun allowRule =>
          jsStartsWithL path allowRule && allowRule.length > rule.length)
      else allowed)
    true

/-- Parser state of the robots.txt loop in `analyzeRobotsTxt`
(src/server.js:392-467): current user-agent cursor, the blocksAll/allowsAll
flags, and the accumulated sitemap/disallow/allow lists. -/
structure RobotsParseState where
  currentUserAgent : Option JStr
  blocksAll : Bool
  allowsAll : Bool
  sitemaps : List JStr
  disallowRules : List JStr
  allowRules : List JStr
deriving DecidableEq

/-- Initial parser state: no current user-agent, no flags, empty lists. -/
def initialRobotsState : RobotsParseState :=
  { currentUserAgent := none, blocksAll := false, allowsAll := false,
    sitemaps := [], disallowRules := [], allowRules := [] }

/-- Embeds the line preprocessing of `analyzeRobotsTxt` (src/server.js:392):
split on newlines, trim, and drop empty lines and comment lines. -/
def robotsLines (content : JStr) : List JStr :=
  ((jsSplitL '\n' content).map jsTrimL).filter
    (fun l => !l.isEmpty && !jsStartsWithL l "#".toList)

/-- Embeds the `Disallow:` block of the robots.txt parsing loop
(src/server.js:419-440): while the cursor is the wildcard agent, an empty or
`/` value sets `blocksAll`, any other value is appended to the disallow
rules. -/
def applyDisallow (st : RobotsParseState) (line lowerLine : JStr) : RobotsParseState :=
  if st.currentUserAgent = some "*".toList ∧
      jsStartsWithL lowerLine "disallow:".toList then
    let path := jsTrimL (line.drop 9)
    if path = "/".toList ∨ path = [] then { st with blocksAll := true }
    else { st with disallowRules := st.disallowRules ++ [path] }
  else st

/-- Embeds the `Allow:` block of the robots.txt parsing loop
(src/server.js:443-458): while the cursor is the wildcard agent, an empty or
`/` value sets `allowsAll`, any other value is appended to the allow
rules. -/
def applyAllow (st : RobotsParseState) (line lowerLine : JStr) : RobotsParseState :=
  if st.currentUserAgent = some "*".toList ∧
      jsStartsWithL lowerLine "allow:".toList then
    let path := jsTrimL (line.drop 6)
    if path = "/".toList ∨ path = [] then { st with allowsAll := true }
    else { st with allowRules := st.allowRules ++ [path] }
  else st

/-- Embeds the `Sitemap:` block of the robots.txt parsing loop
(src/server.js:461-466): independent of the cursor, a nonempty value is
appended to the sitemap list. -/
def applySitemap (st : RobotsParseState) (line lowerLine : JStr) : RobotsParseState :=
  if jsStartsWithL lowerLine "sitemap:".toList then
    let sitemapUrl := jsTrimL (line.drop 8)
    if sitemapUrl = [] then st
    else { st with sitemaps := st.sitemaps ++ [sitemapUrl] }
  else st

/-- Embeds one iteration of the robots.txt parsing loop
(src/server.js:404-467).  A `User-agent:` line moves the cursor and skips the
rest (the JS `continue`); otherwise the `Disallow:`, `Allow:` and `Sitemap:`
blocks run in sequence on the shared state, exactly as the source's three
independent `if` statements do. -/
def processRobotsLine (st : RobotsParseState) (line : JStr) : RobotsParseState :=
  let lowerLine := jsLowerL line
  if jsStartsWithL lowerLine "user-agent:".toList then
    { st with currentUserAgent := some (jsTrimL (line.drop 11)) }
  else
    applySitemap (applyAllow (applyDisallow st line lowerLine) line lowerLine) line lowerLine

/-- Embeds the full robots.txt parsing loop of `analyzeRobotsTxt`. -/
def parseRobots (content : JStr) : RobotsParseState :=
  (robotsLines content).foldl processRobotsLine initialRobotsState

/-- Result record of `analyzeRobotsTxt` (src/server.js:484-496, 508-517,
525-535), restricted to the fields shared by the success and failure shapes
(plus `blocksAll`, which the failure shapes leave absent, i.e. falsy). -/
structure RobotsAnalysis where
  robotsExists : Bool
  allowsIndexing : Bool
  currentPathAllowed : Bool
  blocksAll : Bool
  hasSitemap : Bool
  sitemaps : List JStr
  disallowRules : List JStr
  allowRules : List JStr
deriving DecidableEq

/-- Model of the HTTP response handed back by `fetchContent`: the `ok` flag
(2xx), the numeric status, and the body text. -/
structure FetchResponse where
  ok : Bool
  status : Nat
  body : JStr
deriving DecidableEq

/-- Embeds `analyzeRobotsTxt(url)` (src/server.js:361-537), with the network
effect made explicit: `fetchResult` is `Except.error` when the fetch threw
(network/timeout), and carries the response otherwise.  A thrown fetch or a
non-ok response yields the permissive failure defaults; an ok response is
parsed and summarized. -/
def analyzeRobotsTxt (currentPath : JStr) (fetchResult : Except JStr FetchResponse) :
    RobotsAnalysis :=
  match fetchResult with
  | Except.error _ =>
    { robotsExists := false, allowsIndexing := true, currentPathAllowed := true,
      blocksAll := false, hasSitemap := false, sitemaps := [],
      disallowRules := [], allowRules := [] }
  | Except.ok response =>
    if response.ok then
      let st := parseRobots response.body
      { robotsExists := true,
        allowsIndexing := !st.blocksAll || st.allowsAll,
        currentPathAllowed := checkPathRobots currentPath st.disallowRules st.allowRules,
        blocksAll := st.blocksAll,
        hasSitemap := !st.sitemaps.isEmpty,
        sitemaps := st.sitemaps,
        disallowRules := st.disallowRules,
        allowRules := st.allowRules }
    else
      { robotsExists := false, allowsIndexing := true, currentPathAllowed := true,
        blocksAll := false, hasSitemap := false, sitemaps := [],
        disallowRules := [], allowRules := [] }

/-- Whether the modelled fetch produced an ok (2xx) response. -/
def fetchSucceeded : Except JStr FetchResponse → Bool
  | Except.error _ => false
  | Except.ok response => response.ok

/-- Whether a (trimmed, non-comment) robots.txt line opens a wildcard
`User-agent: *` block, per the tests in src/server.js:408-411. -/
def wildcardAgentLine (line : JStr) : Bool :=
  jsStartsWithL (jsLowerL line) "user-agent:".toList &&
    jsTrimL (line.drop 11) = "*".toList

/-- Whether the robots.txt content contains a wildcard `User-agent: *` line. -/
def hasWildcardBlock (content : JStr) : Bool :=
  (robotsLines content).any wildcardAgentLine

/-- The sitemap URL a line contributes, if any, per src/server.js:461-466:
lines starting with `sitemap:` (case-insensitive) contribute their trimmed
value when it is nonempty. -/
def sitemapLineValue (line : JStr) : Option JStr :=
  if jsStartsWithL (jsLowerL line) "sitemap:".toList then
    let sitemapUrl := jsTrimL (line.drop 8)
    if sitemapUrl = [] then none else some sitemapUrl
  else none

/-- The informational keyword set of `analyzeKeywordIntent`
(src/server.js:573). -/
def informationalKeywords : List JStr :=
  ["what", "how", "why", "guide", "tutorial", "learn", "understand",
    "explain", "definition"].map String.toList

/-- The navigational keyword set of `analyzeKeywordIntent`
(src/server.js:574). -/
def navigationalKeywords : List JStr :=
  ["login", "sign in", "account", "dashboard", "home", "contact"].map String.toList

/-- The transactional keyword set of `analyzeKeywordIntent`
(src/server.js:575). -/
def transactionalKeywords : List JStr :=
  ["buy", "purchase", "order", "price", "cost", "discount", "sale", "shop",
    "cart", "checkout"].map String.toList

/-- The commercial keyword set of `analyzeKeywordIntent`
(src/server.js:576). -/
def commercialKeywords : List JStr :=
  ["compare", "best", "review", "vs", "top", "alternative",
    "recommend"].map String.toList

/-- The `intentPatterns` table of `analyzeKeywordIntent`
(src/server.js:572-577), in declaration order. -/
def intentPatterns : List (JStr × List JStr) :=
  [("informational".toList, informationalKeywords),
    ("navigational".toList, navigationalKeywords),
    ("transactional".toList, transactionalKeywords),
    ("commercial".toList, commercialKeywords)]

/-- Embeds the per-intent match count of `analyzeKeywordIntent`
(src/server.js:580-583): the number of the intent's keywords occurring as a
substring of the content. -/
def intentMatchCount (content : JStr) (keywords : List JStr) : Nat :=
  (keywords.filter (fun keyword => jsIncludesL content keyword)).length

/-- Embeds the content assembly of `analyzeKeywordIntent`
(src/server.js:570): lower-cased `title description text` joined by
spaces. -/
def intentContent (text title description : JStr) : JStr :=
  jsLowerL (title ++ " ".toList ++ description ++ " ".toList ++ text)

/-- Embeds the `intentScores` object of `analyzeKeywordIntent`
(src/server.js:579-583) as an association list in key insertion order. -/
def intentScores (text title description : JStr) : List (JStr × Nat) :=
  intentPatterns.map
    (fun p => (p.1, intentMatchCount (intentContent text title description) p.2))

/-- Embeds the `primaryIntent` reduction of `analyzeKeywordIntent`
(src/server.js:585-587): `Object.keys(intentScores).reduce((a, b) =>
intentScores[a] > intentScores[b] ? a : b)` — a fold over the keys in
insertion order that keeps the accumulator only when its score is strictly
greater. -/
def reducePrimary : List (JStr × Nat) → JStr
  | [] => []
  | x :: xs => (xs.foldl (fun a b => if a.2 > b.2 then a else b) x).1

/-- Result of `analyzeKeywordIntent` (src/server.js:593-598), restricted to
the primary intent and the score table (the floating-point `confidence` and
`aligned` fields are not modelled). -/
structure KeywordIntentResult where
  primaryIntent : JStr
  intentScores : List (JStr × Nat)
deriving DecidableEq

/-- Embeds `analyzeKeywordIntent(text, title, description)`
(src/server.js:568-599). -/
def analyzeKeywordIntent (text title description : JStr) : KeywordIntentResult :=
  { primaryIntent := reducePrimary (intentScores text title description),
    intentScores := intentScores text title description }

/-- URL categories assigned by the urlset branch of `analyzeSitemapContent`
(src/server.js:1033-1051). -/
inductive UrlCategory where
  | category
  | product
  | blog
  | current
  | staticPage
  | other
deriving DecidableEq

/-- Embeds the regex test `loc.match(/\/(category|tag|product|item|blog|post|article)\//)`
of src/server.js:1048: whether the URL contains one of those path segments. -/
def hasCategoryLikeSegment (loc : JStr) : Bool :=
  jsIncludesL loc "/category/".toList || jsIncludesL loc "/tag/".toList ||
  jsIncludesL loc "/product/".toList || jsIncludesL loc "/item/".toList ||
  jsIncludesL loc "/blog/".toList || jsIncludesL loc "/post/".toList ||
  jsIncludesL loc "/article/".toList

/-- Embeds the URL classification chain of `analyzeSitemapContent`
(src/server.js:1033-1051), in the source's fixed priority order. -/
def classifyUrl (loc currentUrl : JStr) : UrlCategory :=
  if jsIncludesL loc "/category/".toList || jsIncludesL loc "/tag/".toList then
    UrlCategory.category
  else if jsIncludesL loc "/product/".toList || jsIncludesL loc "/item/".toList then
    UrlCategory.product
  else if jsIncludesL loc "/blog/".toList || jsIncludesL loc "/post/".toList ||
      jsIncludesL loc "/article/".toList then
    UrlCategory.blog
  else if loc = currentUrl ∨ loc = currentUrl ++ "/".toList then
    UrlCategory.current
  else if !hasCategoryLikeSegment loc && (jsSplitL '/' loc).length ≤ 4 then
    UrlCategory.staticPage
  else
    UrlCategory.other

/-- The `subpageCoverage` record accumulated by `analyzeSitemapContent`
(src/server.js:1015-1023). -/
structure SubpageCoverage where
  totalPages : Nat
  categoryPages : Nat
  productPages : Nat
  blogPages : Nat
  staticPages : Nat
  hasCurrentPage : Bool
  currentPageInSitemap : Bool
deriving DecidableEq

/-- Initial `subpageCoverage` value (src/server.js:1015-1023). -/
def emptyCoverage : SubpageCoverage :=
  { totalPages := 0, categoryPages := 0, productPages := 0, blogPages := 0,
    staticPages := 0, hasCurrentPage := false, currentPageInSitemap := false }

/-- Embeds the per-entry counter updates of `analyzeSitemapContent`
(src/server.js:1033-1051): each `<url>` entry bumps the counter of its
category; `current` sets the current-page flags; `other` counts nothing. -/
def coverageStep (currentUrl : JStr) (cov : SubpageCoverage) (loc : JStr) :
    SubpageCoverage :=
  match classifyUrl loc currentUrl with
  | UrlCategory.category => { cov with categoryPages := cov.categoryPages + 1 }
  | UrlCategory.product => { cov with productPages := cov.productPages + 1 }
  | UrlCategory.blog => { cov with blogPages := cov.blogPages + 1 }
  | UrlCategory.current =>
    { cov with hasCurrentPage := true, currentPageInSitemap := true }
  | UrlCategory.staticPage => { cov with staticPages := cov.staticPages + 1 }
  | UrlCategory.other => cov

/-- Embeds the urlset branch of `analyzeSitemapContent`
(src/server.js:1025-1062) applied to the `<loc>` values of the `<url>`
entries: accumulate the per-category counters over every entry and set
`totalPages` to the number of entries. -/
def analyzeSitemapUrlset (locs : List JStr) (currentUrl : JStr) : SubpageCoverage :=
  let cov := locs.foldl (coverageStep currentUrl) emptyCoverage
  { cov with totalPages := locs.length }

/-- Whether a sitemap entry lands in one of the four counted categories. -/
def classifiable (currentUrl loc : JStr) : Bool :=
  match classifyUrl loc currentUrl with
  | UrlCategory.category => true
  | UrlCategory.product => true
  | UrlCategory.blog => true
  | UrlCategory.staticPage => true
  | _ => false

/-- The fixed catalogue of conventional paths probed by `checkSubpagePaths`
(src/server.js:1303-1319). -/
def commonPaths : List JStr :=
  ["/admin", "/wp-admin", "/login", "/dashboard", "/category/example",
    "/blog", "/products", "/services", "/contact", "/about", "/search",
    "/api", "/user/profile", "/cart", "/checkout"].map String.toList

/-- Embeds the admin-like path test of `getSubpageRecommendation`
(src/server.js:1383). -/
def isAdminPath (path : JStr) : Bool :=
  jsIncludesL path "/admin".toList || jsIncludesL path "/wp-admin".toList ||
  jsIncludesL path "/dashboard".toList || jsIncludesL path "/api".toList

/-- Embeds the content-like path test of `getSubpageRecommendation`
(src/server.js:1384). -/
def isContentPath (path : JStr) : Bool :=
  jsIncludesL path "/category".toList || jsIncludesL path "/blog".toList ||
  jsIncludesL path "/products".toList || jsIncludesL path "/services".toList

/-- Embeds the important path test of `getSubpageRecommendation`
(src/server.js:1385). -/
def isImportantPath (path : JStr) : Bool :=
  jsIncludesL path "/contact".toList || jsIncludesL path "/about".toList ||
  jsIncludesL path "/login".toList

/-- Embeds `getSubpageRecommendation(path, robotsAllowed, inSitemap)`
(src/server.js:1382-1405). -/
def getSubpageRecommendation (path : JStr) (robotsAllowed inSitemap : Bool) : JStr :=
  if isAdminPath path then
    if robotsAllowed then "Should be blocked in robots.txt".toList
    else if inSitemap then "Should not be in sitemap".toList
    else "Properly configured".toList
  else if isContentPath path then
    if !robotsAllowed then "Should be allowed in robots.txt".toList
    else if !inSitemap then "Should be included in sitemap".toList
    else "Properly configured".toList
  else if isImportantPath path then
    if !robotsAllowed then "Should be allowed in robots.txt".toList
    else if inSitemap then "Properly configured".toList
    else "Consider adding to sitemap".toList
  else
    if robotsAllowed then "Properly configured".toList
    else "Review blocking rules".toList

/-- One extracted hreflang entry (src/server.js:802-806): the `hreflang`
attribute and the (absolutized) `href`. -/
structure HreflangEntry where
  lang : JStr
  href : JStr
deriving DecidableEq

/-- Splits a string at its first occurrence of a literal `://`, returning the
part before and the part after. -/
def splitScheme : JStr → Option (JStr × JStr)
  | [] => none
  | c :: cs =>
    if jsStartsWithL (c :: cs) "://".toList then some ([], cs.drop 2)
    else
      match splitScheme cs with
      | some (pre, post) => some (c :: pre, post)
      | none => none

/-- Model of the platform's `new URL(href).pathname` for absolute
`scheme://host/path` URLs, the sole use the self-reference check of
`analyzeHreflang` (src/server.js:830-836) makes of the URL class: the part
of the string after the host up to any query/fragment (`/` when absent), and
`none` (the thrown `TypeError`, caught by the source) when there is no
`scheme://host` shape to parse. -/
def urlPathname (href : JStr) : Option JStr :=
  match splitScheme href with
  | none => none
  | some (scheme, rest) =>
    if scheme.isEmpty || rest.isEmpty then none
    else
      let afterHost := rest.dropWhile (fun c => c != '/')
      let p := afterHost.takeWhile (fun c => c != '?' && c != '#')
      if p.isEmpty then some "/".toList else some p

/-- Embeds the self-reference scan of `analyzeHreflang`
(src/server.js:830-836): some entry's URL pathname equals the audited page's
pathname, with URL parse failures caught as `false`. -/
def hasSelfReference (entries : List HreflangEntry) (baseUrl : JStr) : Bool :=
  entries.any (fun h =>
    match urlPathname h.href, urlPathname baseUrl with
    | some p, some q => p = q
    | _, _ => false)

/-- Embeds the `isValid` computation of `analyzeHreflang`
(src/server.js:829 and 845): at least one entry, every entry with truthy
href and lang, and either more than one entry or a self-reference. -/
def hreflangIsValid (entries : List HreflangEntry) (baseUrl : JStr) : Bool :=
  let v := decide (entries.length > 0) &&
    entries.all (fun h => !h.href.isEmpty && !h.lang.isEmpty)
  v && (decide (entries.length > 1) || hasSelfReference entries baseUrl)

/-- The number of distinct languages among the extracted entries (the
`languages` set of src/server.js:779-801, restricted to the link-tag
entries). -/
def distinctLanguages (entries : List HreflangEntry) : Nat :=
  ((entries.map HreflangEntry.lang).dedup).length

/-- Model of a parsed JSON-LD `@type` value: a JSON string or an array of
strings. -/
inductive JsonLdType where
  | single (s : JStr)
  | arr (l : List JStr)
deriving DecidableEq

/-- Model of one parsed JSON-LD block, restricted to the fields
`analyzeStructuredData` reads (src/server.js:190-201): the optional `@type`
value and the presence of `aggregateRating`/`rating` fields. -/
structure JsonLdSchema where
  atType : Option JsonLdType
  aggregateRating : Bool
  rating : Bool
deriving DecidableEq

/-- Embeds `Array.isArray(schema['@type']) ? schema['@type'][0] :
schema['@type']` (src/server.js:192); an empty array yields `none`
(JavaScript `undefined`). -/
def typeName : JsonLdType → Option JStr
  | JsonLdType.single s => some s
  | JsonLdType.arr l => l.head?

/-- Result record of `analyzeStructuredData` (src/server.js:204-213). -/
structure StructuredDataResult where
  schemasFound : Nat
  types : List (Option JStr)
  organization : Bool
  article : Bool
  product : Bool
  breadcrumb : Bool
  localBusiness : Bool
  rating : Bool
deriving DecidableEq

/-- Embeds one iteration of the `structuredData.forEach` loop of
`analyzeStructuredData` (src/server.js:190-202). -/
def structuredDataStep (r : StructuredDataResult) (schema : JsonLdSchema) :
    StructuredDataResult :=
  match schema.atType with
  | none => r
  | some jt =>
    let t := typeName jt
    let r := if t ∈ r.types then r else { r with types := r.types ++ [t] }
    let r := if t = some "Organization".toList ∨ t = some "LocalBusiness".toList then
        { r with organization := true } else r
    let r := if t = some "Article".toList ∨ t = some "NewsArticle".toList then
        { r with article := true } else r
    let r := if t = some "Product".toList ∨ t = some "Service".toList then
        { r with product := true } else r
    let r := if t = some "BreadcrumbList".toList then
        { r with breadcrumb := true } else r
    let r := if t = some "LocalBusiness".toList then
        { r with localBusiness := true } else r
    if schema.aggregateRating || schema.rating then { r with rating := true } else r

/-- Embeds `analyzeStructuredData(structuredData, $)`
(src/server.js:181-214). -/
def analyzeStructuredData (structuredData : List JsonLdSchema) : StructuredDataResult :=
  structuredData.foldl structuredDataStep
    { schemasFound := structuredData.length, types := [], organization := false,
      article := false, product := false, breadcrumb := false,
      localBusiness := false, rating := false }

/-- Embeds the JSON-LD collection loop of `scrapeSite`
(src/server.js:1768-1772): each script block is parsed independently
(`none` models a `JSON.parse` throw caught by the per-block try/catch) and
only the successfully parsed blocks are kept. -/
def collectJsonLd (parsed : List (Option JsonLdSchema)) : List JsonLdSchema :=
  parsed.filterMap id

/-- Embeds the `estimatedAuthority` computation of `analyzeDomain`
(src/server.js:327): `ageInYears ? (ageInYears >= 3 ? 'Established' :
ageInYears >= 1 ? 'Moderate' : 'New') : 'Unknown'`, where `ageInYears` is
`null` when no age was derived and where JavaScript truthiness makes the
number `0` take the `'Unknown'` branch. -/
def estimatedAuthority (ageInYears : Option Int) : JStr :=
  match ageInYears with
  | none => "Unknown".toList
  | some n =>
    if n = 0 then "Unknown".toList
    else if n ≥ 3 then "Established".toList
    else if n ≥ 1 then "Moderate".toList
    else "New".toList

/-- Modelled from the spec: the authority tier of §4.7 ("≥3y Established,
≥1y Moderate, else New, Unknown if age unknown"), used to exhibit the
divergence of the source's truthiness test at age zero. -/
def estimatedAuthoritySpec (ageInYears : Option Int) : JStr :=
  match ageInYears with
  | none => "Unknown".toList
  | some n =>
    if n ≥ 3 then "Established".toList
    else if n ≥ 1 then "Moderate".toList
    else "New".toList

/-- The fold in `checkPathRobots` keeps the initial verdict unless some rule
matches, in which case the last matching rule decides. -/
lemma foldl_if_redecide {α : Type} (p : α → Bool) (g : α → Bool) :
    ∀ (l : List α) (init : Bool),
      l.foldl (fun acc r => if p r then g r else acc) init
        = (((l.filter p).getLast?).map g).getD init := by
  intro l
  induction l with
  | nil => intro init; rfl
  | cons x xs ih =>
    intro init
    simp only [List.foldl_cons]
    rw [ih]
    by_cases hx : p x
    · simp only [List.filter_cons, hx, if_pos]
      cases hfl : xs.filter p with
      | nil => simp
      | cons y ys =>
        rw [List.getLast?_cons_cons]
        cases hys : (y :: ys).getLast? with
        | none => simp at hys
        | some z => simp
    · simp [List.filter_cons, hx]

/-- Claim C1: `checkPathRobots` returns true by default; each disallow rule
that is a prefix of the path re-decides the verdict to false unless some
allow rule is a prefix of the path and strictly longer than that disallow
rule (so the last matching disallow rule, with its override check, settles
the result).  In particular `checkPathRobots("/admin/x", ["/admin"], [])` is
false and `checkPathRobots("/admin/public", ["/admin"], ["/admin/public"])`
is true. -/
theorem checkPathRobots_default_allow_longest_override :
    (∀ (path : JStr) (disallowRules allowRules : List JStr),
      checkPathRobots path disallowRules allowRules =
        (((disallowRules.filter (fun rule => jsStartsWithL path rule)).getLast?).map
          (fun rule => allowRules.any (fun allowRule =>
            jsStartsWithL path allowRule && allowRule.length > rule.length))).getD true) ∧
    checkPathRobots "/admin/x".toList ["/admin".toList] [] = false ∧
    checkPathRobots "/admin/public".toList ["/admin".toList]
      ["/admin/public".toList] = true := by
  refine ⟨?_, by decide, by decide⟩
  intro path disallowRules allowRules
  exact foldl_if_redecide _ _ disallowRules true

/-- Claim C10: `checkPathRobots` is monotone in the allow-rule list —
appending one more allow rule can never turn an allowed path into a
disallowed one. -/
theorem checkPathRobots_allow_monotone (path : JStr) (disallowRules allowRules : List JStr)
    (extra : JStr) (h : checkPathRobots path disallowRules allowRules = true) :
    checkPathRobots path disallowRules (allowRules ++ [extra]) = true := by
  rw [checkPathRobots, foldl_if_redecide] at h ⊢
  cases hl : (disallowRules.filter (fun rule => jsStartsWithL path rule)).getLast? with
  | none => simp [hl]
  | some rule =>
    rw [hl] at h
    simp only [Option.map_some', Option.getD_some] at h ⊢
    rw [List.any_append]
    simp [h]

/-- Witness for claim C10 at a concrete input. -/
theorem checkPathRobots_allow_monotone_witness :
    checkPathRobots "/admin/public".toList ["/admin".toList]
        ["/admin/public".toList] = true ∧
      checkPathRobots "/admin/public".toList ["/admin".toList]
        (["/admin/public".toList] ++ ["/shop".toList]) = true :=
  ⟨by decide, checkPathRobots_allow_monotone _ _ _ _ (by decide)⟩

/-- Claim C2: when the robots.txt fetch throws or returns a non-2xx
response, `analyzeRobotsTxt` returns the permissive defaults: exists=false,
allowsIndexing=true, currentPathAllowed=true and empty rule lists. -/
theorem analyzeRobotsTxt_failure_defaults (currentPath : JStr)
    (fetchResult : Except JStr FetchResponse)
    (h : fetchSucceeded fetchResult = false) :
    (analyzeRobotsTxt currentPath fetchResult).robotsExists = false ∧
    (analyzeRobotsTxt currentPath fetchResult).allowsIndexing = true ∧
    (analyzeRobotsTxt currentPath fetchResult).currentPathAllowed = true ∧
    (analyzeRobotsTxt currentPath fetchResult).disallowRules = [] ∧
    (analyzeRobotsTxt currentPath fetchResult).allowRules = [] := by
  cases fetchResult with
  | error e => simp [analyzeRobotsTxt]
  | ok response =>
    simp only [fetchSucceeded] at h
    simp [analyzeRobotsTxt, h]

/-- Witness for claim C2 at a concrete 404 response. -/
theorem analyzeRobotsTxt_failure_defaults_witness :
    fetchSucceeded (Except.ok (FetchResponse.mk false 404 [])) = false ∧
    ((analyzeRobotsTxt "/".toList (Except.ok (FetchResponse.mk false 404 []))).robotsExists = false ∧
     (analyzeRobotsTxt "/".toList (Except.ok (FetchResponse.mk false 404 []))).allowsIndexing = true ∧
     (analyzeRobotsTxt "/".toList (Except.ok (FetchResponse.mk false 404 []))).currentPathAllowed = true ∧
     (analyzeRobotsTxt "/".toList (Except.ok (FetchResponse.mk false 404 []))).disallowRules = [] ∧
     (analyzeRobotsTxt "/".toList (Except.ok (FetchResponse.mk false 404 []))).allowRules = []) :=
  ⟨by decide, analyzeRobotsTxt_failure_defaults _ _ (by decide)⟩

/-- Two candidate prefixes that differ in their first character cannot both
be prefixes of the same line. -/
lemma jsStartsWithL_head_ne (l : JStr) (a b : Char) (as bs : JStr) (hab : b ≠ a)
    (h : jsStartsWithL l (a :: as) = true) : jsStartsWithL l (b :: bs) = false := by
  cases l with
  | nil => simp [jsStartsWithL, List.isPrefixOf] at h
  | cons x xs =>
    simp only [jsStartsWithL, List.isPrefixOf, Bool.and_eq_true, beq_iff_eq] at h
    obtain ⟨hax, -⟩ := h
    subst hax
    have hba : (b == a) = false := beq_eq_false_iff_ne.mpr hab
    simp [jsStartsWithL, List.isPrefixOf, hba]


/-- The `Disallow:` block never touches the sitemap list. -/
lemma applyDisallow_sitemaps (st : RobotsParseState) (line lowerLine : JStr) :
    (applyDisallow st line lowerLine).sitemaps = st.sitemaps := by
  unfold applyDisallow
  dsimp only
  split_ifs <;> rfl

/-- The `Allow:` block never touches the sitemap list. -/
lemma applyAllow_sitemaps (st : RobotsParseState) (line lowerLine : JStr) :
    (applyAllow st line lowerLine).sitemaps = st.sitemaps := by
  unfold applyAllow
  dsimp only
  split_ifs <;> rfl

/-- The `Sitemap:` block only touches the sitemap list. -/
lemma applySitemap_fields (st : RobotsParseState) (line lowerLine : JStr) :
    (applySitemap st line lowerLine).currentUserAgent = st.currentUserAgent ∧
    (applySitemap st line lowerLine).blocksAll = st.blocksAll ∧
    (applySitemap st line lowerLine).allowsAll = st.allowsAll ∧
    (applySitemap st line lowerLine).disallowRules = st.disallowRules ∧
    (applySitemap st line lowerLine).allowRules = st.allowRules := by
  unfold applySitemap
  dsimp only
  split_ifs <;> exact ⟨rfl, rfl, rfl, rfl, rfl⟩

/-- The `Sitemap:` block appends exactly the line's sitemap contribution. -/
lemma applySitemap_sitemaps (st : RobotsParseState) (line : JStr) :
    (applySitemap st line (jsLowerL line)).sitemaps =
      st.sitemaps ++ (sitemapLineValue line).toList := by
  unfold applySitemap sitemapLineValue
  dsimp only
  split_ifs <;> simp

/-- Outside a wildcard block, the `Disallow:` block is inert. -/
lemma applyDisallow_not_wildcard (st : RobotsParseState) (line lowerLine : JStr)
    (h : ¬ st.currentUserAgent = some "*".toList) :
    applyDisallow st line lowerLine = st := by
  unfold applyDisallow
  rw [if_neg]
  intro hc
  exact h hc.1

/-- Outside a wildcard block, the `Allow:` block is inert. -/
lemma applyAllow_not_wildcard (st : RobotsParseState) (line lowerLine : JStr)
    (h : ¬ st.currentUserAgent = some "*".toList) :
    applyAllow st line lowerLine = st := by
  unfold applyAllow
  rw [if_neg]
  intro hc
  exact h hc.1

/-- One parse step appends exactly the line's sitemap contribution to the
accumulated sitemap list, whatever the cursor is. -/
lemma processRobotsLine_sitemaps (st : RobotsParseState) (line : JStr) :
    (processRobotsLine st line).sitemaps =
      st.sitemaps ++ (sitemapLineValue line).toList := by
  unfold processRobotsLine
  dsimp only
  by_cases hu : jsStartsWithL (jsLowerL line) "user-agent:".toList = true
  · have hs : jsStartsWithL (jsLowerL line) "sitemap:".toList = false :=
      jsStartsWithL_head_ne _ 'u' 's' _ _ (by decide) hu
    have hv : sitemapLineValue line = none := by
      unfold sitemapLineValue
      rw [if_neg]
      rw [hs]
      exact Bool.false_ne_true
    rw [if_pos hu, hv]
    simp
  · rw [if_neg hu, applySitemap_sitemaps, applyAllow_sitemaps, applyDisallow_sitemaps]

/-- One parse step on a non-wildcard line, outside a wildcard block, keeps
the cursor off the wildcard agent and leaves rules and flags unchanged. -/
lemma processRobotsLine_no_wildcard (st : RobotsParseState) (line : JStr)
    (hl : wildcardAgentLine line = false)
    (hcua : ¬ st.currentUserAgent = some "*".toList) :
    ¬ (processRobotsLine st line).currentUserAgent = some "*".toList ∧
    (processRobotsLine st line).disallowRules = st.disallowRules ∧
    (processRobotsLine st line).allowRules = st.allowRules ∧
    (processRobotsLine st line).blocksAll = st.blocksAll ∧
    (processRobotsLine st line).allowsAll = st.allowsAll := by
  unfold processRobotsLine
  dsimp only
  by_cases hu : jsStartsWithL (jsLowerL line) "user-agent:".toList = true
  · unfold wildcardAgentLine at hl
    rw [hu, Bool.true_and] at hl
    rw [if_pos hu]
    refine ⟨?_, rfl, rfl, rfl, rfl⟩
    intro hEq
    have hEq2 : some (jsTrimL (line.drop 11)) = some "*".toList := hEq
    rw [Option.some_inj] at hEq2
    rw [hEq2] at hl
    simp at hl
  · rw [if_neg hu, applyDisallow_not_wildcard st line _ hcua,
      applyAllow_not_wildcard st line _ hcua]
    obtain ⟨f1, f2, f3, f4, f5⟩ := applySitemap_fields st line (jsLowerL line)
    exact ⟨by rw [f1]; exact hcua, f4, f5, f2, f3⟩

/-- Folding the parser over wildcard-free lines, starting outside a wildcard
block, keeps the cursor off the wildcard agent and leaves rules and flags
unchanged. -/
lemma foldl_no_wildcard (lines : List JStr) :
    ∀ st : RobotsParseState,
      (∀ l ∈ lines, wildcardAgentLine l = false) →
      ¬ st.currentUserAgent = some "*".toList →
      (¬ (lines.foldl processRobotsLine st).currentUserAgent = some "*".toList ∧
       (lines.foldl processRobotsLine st).disallowRules = st.disallowRules ∧
       (lines.foldl processRobotsLine st).allowRules = st.allowRules ∧
       (lines.foldl processRobotsLine st).blocksAll = st.blocksAll ∧
       (lines.foldl processRobotsLine st).allowsAll = st.allowsAll) := by
  induction lines with
  | nil => exact fun st _ hcua => ⟨hcua, rfl, rfl, rfl, rfl⟩
  | cons l ls ih =>
    intro st h hcua
    simp only [List.foldl_cons]
    obtain ⟨h1, h2, h3, h4, h5⟩ :=
      processRobotsLine_no_wildcard st l (h l (by simp)) hcua
    obtain ⟨g1, g2, g3, g4, g5⟩ :=
      ih (processRobotsLine st l) (fun x hx => h x (by simp [hx])) h1
    exact ⟨g1, by rw [g2, h2], by rw [g3, h3], by rw [g4, h4], by rw [g5, h5]⟩

/-- Folding the parser accumulates exactly the sitemap contributions of the
lines, whatever the cursor does. -/
lemma foldl_sitemaps (lines : List JStr) :
    ∀ st : RobotsParseState,
      (lines.foldl processRobotsLine st).sitemaps =
        st.sitemaps ++ lines.filterMap sitemapLineValue := by
  induction lines with
  | nil => intro st; simp
  | cons l ls ih =>
    intro st
    simp only [List.foldl_cons, List.filterMap_cons]
    rw [ih, processRobotsLine_sitemaps]
    cases sitemapLineValue l <;> simp

/-- Claim C3: on any robots.txt text with no wildcard `User-agent: *` block
— including texts with `Disallow:`/`Allow:` lines before any `User-agent:`
line or inside named-agent blocks — `analyzeRobotsTxt` extracts no disallow
or allow rules and reports `allowsIndexing = true`, while `Sitemap:` lines
are still collected from every line regardless of the agent cursor. -/
theorem analyzeRobotsTxt_no_wildcard_block (content currentPath : JStr)
    (h : hasWildcardBlock content = false) :
    (analyzeRobotsTxt currentPath (Except.ok (FetchResponse.mk true 200 content))).disallowRules = [] ∧
    (analyzeRobotsTxt currentPath (Except.ok (FetchResponse.mk true 200 content))).allowRules = [] ∧
    (analyzeRobotsTxt currentPath (Except.ok (FetchResponse.mk true 200 content))).allowsIndexing = true ∧
    (analyzeRobotsTxt currentPath (Except.ok (FetchResponse.mk true 200 content))).sitemaps =
      (robotsLines content).filterMap sitemapLineValue := by
  have hlines : ∀ l ∈ robotsLines content, wildcardAgentLine l = false := by
    rw [hasWildcardBlock] at h
    exact fun l hl => Bool.eq_false_iff.mpr (List.any_eq_false.mp h l hl)
  obtain ⟨i1, i2, i3, i4, i5⟩ :=
    foldl_no_wildcard (robotsLines content) initialRobotsState hlines (by simp [initialRobotsState])
  have hsm := foldl_sitemaps (robotsLines content) initialRobotsState
  simp only [analyzeRobotsTxt, if_pos]
  refine ⟨?_, ?_, ?_, ?_⟩
  · exact i2.trans rfl
  · exact i3.trans rfl
  · rw [parseRobots] at *
    simp only [Bool.or_eq_true, Bool.not_eq_eq_eq_not, Bool.not_true]
    exact Or.inl (i4.trans rfl)
  · rw [parseRobots] at *
    rw [hsm]
    simp [initialRobotsState]

/-- Witness for claim C3: a robots.txt with a disallow line before any
user-agent line, a named-agent block with a disallow line, and a sitemap
line. -/
theorem analyzeRobotsTxt_no_wildcard_block_witness :
    hasWildcardBlock
        "Disallow: /x\nUser-agent: googlebot\nDisallow: /y\nSitemap: https://x.test/s.xml".toList
      = false ∧
    ((analyzeRobotsTxt "/page".toList (Except.ok (FetchResponse.mk true 200
        "Disallow: /x\nUser-agent: googlebot\nDisallow: /y\nSitemap: https://x.test/s.xml".toList))).disallowRules = [] ∧
     (analyzeRobotsTxt "/page".toList (Except.ok (FetchResponse.mk true 200
        "Disallow: /x\nUser-agent: googlebot\nDisallow: /y\nSitemap: https://x.test/s.xml".toList))).allowRules = [] ∧
     (analyzeRobotsTxt "/page".toList (Except.ok (FetchResponse.mk true 200
        "Disallow: /x\nUser-agent: googlebot\nDisallow: /y\nSitemap: https://x.test/s.xml".toList))).allowsIndexing = true ∧
     (analyzeRobotsTxt "/page".toList (Except.ok (FetchResponse.mk true 200
        "Disallow: /x\nUser-agent: googlebot\nDisallow: /y\nSitemap: https://x.test/s.xml".toList))).sitemaps =
       (robotsLines
         "Disallow: /x\nUser-agent: googlebot\nDisallow: /y\nSitemap: https://x.test/s.xml".toList).filterMap
         sitemapLineValue) :=
  ⟨by decide, analyzeRobotsTxt_no_wildcard_block _ _ (by decide)⟩

/-- Folding the coverage counters over classifiable entries adds exactly the
number of entries to the sum of the four category counters. -/
lemma coverage_sum (currentUrl : JStr) (locs : List JStr) :
    ∀ cov : SubpageCoverage,
      (∀ l ∈ locs, classifiable currentUrl l = true) →
      (locs.foldl (coverageStep currentUrl) cov).categoryPages +
        (locs.foldl (coverageStep currentUrl) cov).productPages +
        (locs.foldl (coverageStep currentUrl) cov).blogPages +
        (locs.foldl (coverageStep currentUrl) cov).staticPages =
      cov.categoryPages + cov.productPages + cov.blogPages + cov.staticPages +
        locs.length := by
  induction locs with
  | nil => intro cov _; simp
  | cons l ls ih =>
    intro cov h
    simp only [List.foldl_cons, List.length_cons]
    have hl := h l (by simp)
    rw [ih (coverageStep currentUrl cov l) (fun x hx => h x (by simp [hx]))]
    unfold classifiable at hl
    unfold coverageStep
    cases hc : classifyUrl l currentUrl <;> rw [hc] at hl <;> simp at hl ⊢ <;> omega

/-- Claim C4: for a urlset sitemap in which every entry is classifiable
(falls into one of the four counted categories under the source's fixed
priority order), the four per-category counters of `analyzeSitemapContent`
sum to `totalPages`. -/
theorem analyzeSitemapUrlset_counts_sum (locs : List JStr) (currentUrl : JStr)
    (h : locs.all (classifiable currentUrl) = true) :
    (analyzeSitemapUrlset locs currentUrl).categoryPages +
      (analyzeSitemapUrlset locs currentUrl).productPages +
      (analyzeSitemapUrlset locs currentUrl).blogPages +
      (analyzeSitemapUrlset locs currentUrl).staticPages =
    (analyzeSitemapUrlset locs currentUrl).totalPages := by
  have h2 : ∀ l ∈ locs, classifiable currentUrl l = true := by
    rw [List.all_eq_true] at h
    exact h
  have h3 := coverage_sum currentUrl locs emptyCoverage h2
  unfold analyzeSitemapUrlset
  dsimp only
  rw [show emptyCoverage.categoryPages = 0 from rfl,
    show emptyCoverage.productPages = 0 from rfl,
    show emptyCoverage.blogPages = 0 from rfl,
    show emptyCoverage.staticPages = 0 from rfl] at h3
  omega

/-- Witness for claim C4: a category page, a product page, a blog page and a
shallow static page. -/
theorem analyzeSitemapUrlset_counts_sum_witness :
    (["https://x.test/category/a".toList, "https://x.test/product/p".toList,
        "https://x.test/blog/b".toList, "https://x.test/about".toList].all
      (classifiable "https://x.test/home".toList)) = true ∧
    ((analyzeSitemapUrlset
        ["https://x.test/category/a".toList, "https://x.test/product/p".toList,
          "https://x.test/blog/b".toList, "https://x.test/about".toList]
        "https://x.test/home".toList).categoryPages +
      (analyzeSitemapUrlset
        ["https://x.test/category/a".toList, "https://x.test/product/p".toList,
          "https://x.test/blog/b".toList, "https://x.test/about".toList]
        "https://x.test/home".toList).productPages +
      (analyzeSitemapUrlset
        ["https://x.test/category/a".toList, "https://x.test/product/p".toList,
          "https://x.test/blog/b".toList, "https://x.test/about".toList]
        "https://x.test/home".toList).blogPages +
      (analyzeSitemapUrlset
        ["https://x.test/category/a".toList, "https://x.test/product/p".toList,
          "https://x.test/blog/b".toList, "https://x.test/about".toList]
        "https://x.test/home".toList).staticPages =
      (analyzeSitemapUrlset
        ["https://x.test/category/a".toList, "https://x.test/product/p".toList,
          "https://x.test/blog/b".toList, "https://x.test/about".toList]
        "https://x.test/home".toList).totalPages) :=
  ⟨by decide, analyzeSitemapUrlset_counts_sum _ _ (by decide)⟩

/-- The four-entry instance of the `reduce` in `analyzeKeywordIntent`: the
winner is the last-declared key attaining the maximum score, because the
accumulator is kept only when strictly greater. -/
lemma reducePrimary_four (i n t c : JStr) (a b k d : Nat) :
    reducePrimary [(i, a), (n, b), (t, k), (c, d)] =
      (if max (max (max a b) k) d ≤ d then c
       else if max (max (max a b) k) d ≤ k then t
       else if max (max (max a b) k) d ≤ b then n
       else i) := by
  unfold reducePrimary
  simp only [List.foldl_cons, List.foldl_nil]
  by_cases h1 : (i, a).2 > (n, b).2
  · have h1' : a > b := h1
    rw [if_pos h1]
    by_cases h2 : (i, a).2 > (t, k).2
    · have h2' : a > k := h2
      rw [if_pos h2]
      by_cases h3 : (i, a).2 > (c, d).2
      · have h3' : a > d := h3
        rw [if_pos h3, if_neg (by omega : ¬ max (max (max a b) k) d ≤ d),
          if_neg (by omega : ¬ max (max (max a b) k) d ≤ k),
          if_neg (by omega : ¬ max (max (max a b) k) d ≤ b)]
      · have h3' : ¬ a > d := h3
        rw [if_neg h3, if_pos (by omega : max (max (max a b) k) d ≤ d)]
    · have h2' : ¬ a > k := h2
      rw [if_neg h2]
      by_cases h3 : (t, k).2 > (c, d).2
      · have h3' : k > d := h3
        rw [if_pos h3, if_neg (by omega : ¬ max (max (max a b) k) d ≤ d),
          if_pos (by omega : max (max (max a b) k) d ≤ k)]
      · have h3' : ¬ k > d := h3
        rw [if_neg h3, if_pos (by omega : max (max (max a b) k) d ≤ d)]
  · have h1' : ¬ a > b := h1
    rw [if_neg h1]
    by_cases h2 : (n, b).2 > (t, k).2
    · have h2' : b > k := h2
      rw [if_pos h2]
      by_cases h3 : (n, b).2 > (c, d).2
      · have h3' : b > d := h3
        rw [if_pos h3, if_neg (by omega : ¬ max (max (max a b) k) d ≤ d),
          if_neg (by omega : ¬ max (max (max a b) k) d ≤ k),
          if_pos (by omega : max (max (max a b) k) d ≤ b)]
      · have h3' : ¬ b > d := h3
        rw [if_neg h3, if_pos (by omega : max (max (max a b) k) d ≤ d)]
    · have h2' : ¬ b > k := h2
      rw [if_neg h2]
      by_cases h3 : (t, k).2 > (c, d).2
      · have h3' : k > d := h3
        rw [if_pos h3, if_neg (by omega : ¬ max (max (max a b) k) d ≤ d),
          if_pos (by omega : max (max (max a b) k) d ≤ k)]
      · have h3' : ¬ k > d := h3
        rw [if_neg h3, if_pos (by omega : max (max (max a b) k) d ≤ d)]

/-- Counterexample to claim C5: with text `""`, title `"what login"` and
description `""`, the informational and navigational intents tie at one
match each (the other two score zero), yet `analyzeKeywordIntent` selects
`navigational` — the later-declared of the tied intents — not the
first-declared `informational` the claim requires. -/
theorem analyzeKeywordIntent_tie_counterexample :
    (analyzeKeywordIntent [] "what login".toList []).intentScores =
      [("informational".toList, 1), ("navigational".toList, 1),
        ("transactional".toList, 0), ("commercial".toList, 0)] ∧
    (analyzeKeywordIntent [] "what login".toList []).primaryIntent =
      "navigational".toList ∧
    "navigational".toList ≠ "informational".toList := by decide

/-- Claim C5, amended: `analyzeKeywordIntent` selects as `primaryIntent` the
intent with the highest substring-match count, and when two or more intents
are tied for the highest count the LAST-declared intent among them — in the
declaration order informational, navigational, transactional, commercial —
wins the tie (the reduce keeps the accumulator only on strictly greater
scores, so later keys win equalities). -/
theorem analyzeKeywordIntent_primary_last_max (text title description : JStr) :
    (analyzeKeywordIntent text title description).primaryIntent =
      (if max (max (max
            (intentMatchCount (intentContent text title description) informationalKeywords)
            (intentMatchCount (intentContent text title description) navigationalKeywords))
            (intentMatchCount (intentContent text title description) transactionalKeywords))
            (intentMatchCount (intentContent text title description) commercialKeywords) ≤
          intentMatchCount (intentContent text title description) commercialKeywords then
        "commercial".toList
       else if max (max (max
            (intentMatchCount (intentContent text title description) informationalKeywords)
            (intentMatchCount (intentContent text title description) navigationalKeywords))
            (intentMatchCount (intentContent text title description) transactionalKeywords))
            (intentMatchCount (intentContent text title description) commercialKeywords) ≤
          intentMatchCount (intentContent text title description) transactionalKeywords then
        "transactional".toList
       else if max (max (max
            (intentMatchCount (intentContent text title description) informationalKeywords)
            (intentMatchCount (intentContent text title description) navigationalKeywords))
            (intentMatchCount (intentContent text title description) transactionalKeywords))
            (intentMatchCount (intentContent text title description) commercialKeywords) ≤
          intentMatchCount (intentContent text title description) navigationalKeywords then
        "navigational".toList
       else "informational".toList) := by
  have hs : intentScores text title description =
      [("informational".toList,
          intentMatchCount (intentContent text title description) informationalKeywords),
        ("navigational".toList,
          intentMatchCount (intentContent text title description) navigationalKeywords),
        ("transactional".toList,
          intentMatchCount (intentContent text title description) transactionalKeywords),
        ("commercial".toList,
          intentMatchCount (intentContent text title description) commercialKeywords)] := rfl
  have hp : (analyzeKeywordIntent text title description).primaryIntent =
      reducePrimary (intentScores text title description) := rfl
  rw [hp, hs, reducePrimary_four]

/-- Counterexample to claim C6: the catalogue path `/admin`, blocked by
robots but listed in a sitemap, gets "Should not be in sitemap" from
`getSubpageRecommendation`, not "properly configured" — the sitemap-listing
is not irrelevant for a blocked admin-like path. -/
theorem getSubpageRecommendation_blocked_admin_counterexample :
    "/admin".toList ∈ commonPaths ∧
    isAdminPath "/admin".toList = true ∧
    getSubpageRecommendation "/admin".toList false true =
      "Should not be in sitemap".toList ∧
    "Should not be in sitemap".toList ≠ "Properly configured".toList := by decide

/-- Claim C6, amended: for every admin-like path, `getSubpageRecommendation`
returns the should-be-blocked recommendation whenever the path is allowed;
when the path is blocked it returns "Properly configured" only if the path
is also not listed in a sitemap, and "Should not be in sitemap" if it is
listed. -/
theorem getSubpageRecommendation_admin_table (path : JStr) (inSitemap : Bool)
    (h : isAdminPath path = true) :
    getSubpageRecommendation path true inSitemap =
      "Should be blocked in robots.txt".toList ∧
    getSubpageRecommendation path false true = "Should not be in sitemap".toList ∧
    getSubpageRecommendation path false false = "Properly configured".toList := by
  unfold getSubpageRecommendation
  rw [if_pos h, if_pos h, if_pos h]
  exact ⟨rfl, rfl, rfl⟩

/-- Witness for the amended claim C6 at the catalogue path `/admin`. -/
theorem getSubpageRecommendation_admin_table_witness :
    isAdminPath "/admin".toList = true ∧
    (getSubpageRecommendation "/admin".toList true true =
        "Should be blocked in robots.txt".toList ∧
      getSubpageRecommendation "/admin".toList false true =
        "Should not be in sitemap".toList ∧
      getSubpageRecommendation "/admin".toList false false =
        "Properly configured".toList) :=
  ⟨by decide, getSubpageRecommendation_admin_table "/admin".toList true (by decide)⟩

/-- Counterexample to claim C7: two entries that share the single language
`en` and contain no self-reference are reported valid by `analyzeHreflang`,
because the source compares the number of entries (`hreflangs.length > 1`),
not the number of distinct declared languages. -/
theorem hreflangIsValid_entry_count_counterexample :
    hreflangIsValid
        [HreflangEntry.mk "en".toList "https://x.test/a".toList,
          HreflangEntry.mk "en".toList "https://x.test/b".toList]
        "https://x.test/c".toList = true ∧
    distinctLanguages
        [HreflangEntry.mk "en".toList "https://x.test/a".toList,
          HreflangEntry.mk "en".toList "https://x.test/b".toList] = 1 ∧
    hasSelfReference
        [HreflangEntry.mk "en".toList "https://x.test/a".toList,
          HreflangEntry.mk "en".toList "https://x.test/b".toList]
        "https://x.test/c".toList = false := by decide

/-- Claim C7, amended: for entries as the extractor produces them (nonempty
lang and href), `analyzeHreflang` reports `isValid = true` iff at least one
entry exists and either more than one ENTRY is present (regardless of how
many distinct languages they declare) or some entry's URL path equals the
audited page's path. -/
theorem hreflangIsValid_iff (entries : List HreflangEntry) (baseUrl : JStr)
    (h : entries.all (fun e => !e.href.isEmpty && !e.lang.isEmpty) = true) :
    (hreflangIsValid entries baseUrl = true ↔
      (0 < entries.length ∧
        (1 < entries.length ∨ hasSelfReference entries baseUrl = true))) := by
  unfold hreflangIsValid
  dsimp only
  rw [h]
  simp

/-- Witness for the amended claim C7: a single self-referencing entry. -/
theorem hreflangIsValid_iff_witness :
    ([HreflangEntry.mk "en".toList "https://x.test/".toList].all
        (fun e => !e.href.isEmpty && !e.lang.isEmpty)) = true ∧
    (hreflangIsValid [HreflangEntry.mk "en".toList "https://x.test/".toList]
        "https://x.test/".toList = true ↔
      (0 < ([HreflangEntry.mk "en".toList "https://x.test/".toList] : List HreflangEntry).length ∧
        (1 < ([HreflangEntry.mk "en".toList "https://x.test/".toList] : List HreflangEntry).length ∨
          hasSelfReference [HreflangEntry.mk "en".toList "https://x.test/".toList]
            "https://x.test/".toList = true))) :=
  ⟨by decide, hreflangIsValid_iff _ _ (by decide)⟩

/-- Claim C8: with exactly two JSON-LD blocks, one parsing to an
Organization schema and one malformed (its parse failure caught per-item and
skipped), the structured-data analysis finds one schema and sets the
organization flag; no exception escapes, as the whole computation is total
by construction. -/
theorem structuredData_skips_malformed_block :
    (analyzeStructuredData (collectJsonLd
        [some (JsonLdSchema.mk (some (JsonLdType.single "Organization".toList)) false false),
          none])).schemasFound = 1 ∧
    (analyzeStructuredData (collectJsonLd
        [some (JsonLdSchema.mk (some (JsonLdType.single "Organization".toList)) false false),
          none])).organization = true := by decide

/-- Claim C9 names a real code bug: a successfully computed age of zero
years (domain first archived less than one year ago) takes the falsy branch
of `ageInYears ? ... : 'Unknown'`, so the code answers "Unknown" where the
claim — and the otherwise-dead `'New'` branch of the source's own ternary —
requires "New". -/
theorem estimatedAuthority_age_zero_bug :
    estimatedAuthority (some 0) = "Unknown".toList ∧
    estimatedAuthoritySpec (some 0) = "New".toList ∧
    "Unknown".toList ≠ "New".toList := by decide
